import Mathlib

/-!
Shallow embedding of src/overlaybd/registryfs/registryfs_v2.cpp: the
registry filesystem v2 (challenge parsing, token acquisition, URL
resolution, ranged blob reads, length probing and fstat).

HTTP responses, the JSON parser and the contents of the photon object
caches are supplied as explicit inputs, so every definition below is a
pure function of what one execution of the corresponding C++ routine
observes.  String manipulation from the source (split on commas, trim of
quote characters, substr at the first equals sign, byte-wise comparison
of the leading "Bearer " text) is carried out on explicit character
lists so that all definitions reduce inside the kernel.
-/

namespace RegV2

/-- POSIX error codes the source hands to LOG_ERROR_RETURN. -/
inductive Errno where
  | ENOENT
  | EINVAL
  | EPERM
  | ETIMEDOUT
  deriving DecidableEq, Repr

/-- An HTTP response as the photon client presents it to this code:
status code, the (case-insensitively looked up) www-authenticate header,
the Location header, the raw body, and resource_size(). -/
structure HResp where
  status : Int
  wwwAuth : Option String
  location : String
  body : String
  size : Nat
  deriving DecidableEq, Repr

/-- Strip the quote character from both ends of a value: models the
trim of the double-quote character the source applies to each value. -/
def trimQuotes (l : List Char) : List Char :=
  ((l.dropWhile (· == '"')).reverse.dropWhile (· == '"')).reverse

/-- Worker for splitting on commas, accumulating the current segment. -/
def splitCommaAux : List Char → List Char → List (List Char)
  | [], acc => [acc.reverse]
  | c :: rest, acc =>
    if c = ',' then acc.reverse :: splitCommaAux rest []
    else splitCommaAux rest (c :: acc)

/-- Split a character list on commas, keeping empty segments. -/
def splitComma (l : List Char) : List (List Char) :=
  splitCommaAux l []

/-- Split one token at the first equals sign.  With no equals sign the
source takes substr(0, npos) for the key and substr(npos + 1) for the
value; npos + 1 wraps to 0, so both are the whole token. -/
def kvOfTokenAux : List Char → List Char → List Char × List Char
  | acc, [] => (acc.reverse, acc.reverse)
  | acc, c :: rest =>
    if c = '=' then (acc.reverse, rest) else kvOfTokenAux (c :: acc) rest

/-- One key=value token: the value is quote-trimmed, the key is not. -/
def kvOfToken (tok : List Char) : List Char × List Char :=
  let p := kvOfTokenAux [] tok
  (p.1, trimQuotes p.2)

/-- str_to_kvmap from the source: split the line on commas and cut each
token at its first equals sign.  unordered_map emplace keeps the first
insertion for a duplicated key, so lookups take the first match. -/
def str_to_kvmap (src : List Char) : List (List Char × List Char) :=
  (splitComma src).map kvOfToken

/-- First-match lookup in the association list built by str_to_kvmap. -/
def kvFind : List (List Char × List Char) → List Char → Option (List Char)
  | [], _ => none
  | p :: rest, k => if p.1 = k then some p.2 else kvFind rest k

/-- Byte-wise leading-text test on character lists: models the
starts_with of estring, which compares bytes and is case sensitive. -/
def leadsWith : List Char → List Char → Bool
  | [], _ => true
  | _ :: _, [] => false
  | p :: ps, c :: cs => p == c && leadsWith ps cs

/-- The literal "Bearer " constant of the source. -/
def bearerMark : List Char := ['B', 'e', 'a', 'r', 'e', 'r', ' ']

/-- get_scope_auth: probe GET on the blob URL with Range 0-0.  Connect
failure (status -1) is ENOENT.  Any status other than 401/403 returns
success without touching the out parameters, so authurl and scope stay
empty.  On 401/403 the www-authenticate value must carry the exact
leading text "Bearer "; the remainder is split into key=value tokens and
the three keys realm, service, scope are required; the composed auth URL
is realm?service=SERVICE&scope=SCOPE with the values verbatim. -/
def get_scope_auth (probe : HResp) : Except Errno (String × String) :=
  if probe.status = -1 then .error .ENOENT
  else if probe.status ≠ 401 ∧ probe.status ≠ 403 then .ok ("", "")
  else
    match probe.wwwAuth with
    | none => .error .EINVAL
    | some line =>
      let cl := line.toList
      if leadsWith bearerMark cl then
        let kv := str_to_kvmap (cl.drop bearerMark.length)
        match kvFind kv "realm".toList, kvFind kv "service".toList,
              kvFind kv "scope".toList with
        | some realm, some service, some scope =>
          .ok (String.mk (realm ++ "?service=".toList ++ service ++
                "&scope=".toList ++ scope), String.mk scope)
        | _, _, _ => .error .EINVAL
      else .error .EINVAL

/-- First-match lookup in a string-keyed association list: used for JSON
members and for modelled cache contents. -/
def jFind : List (String × String) → String → Option String
  | [], _ => none
  | p :: rest, k => if p.1 = k then some p.2 else jFind rest k

/-- parse_token: a JSON parse error fails; otherwise the member "token"
wins, else the member "access_token", else failure.  A document is
modelled as its string-valued members, none standing for a parse
error. -/
def parse_token (doc : Option (List (String × String))) : Option String :=
  match doc with
  | none => none
  | some d =>
    match jFind d "token" with
    | some t => some t
    | none => jFind d "access_token"

/-- The base64 alphabet. -/
def b64Alphabet : List Char :=
  "ABCDEFGHIJKLMNOPQRSTUVWXYZabcdefghijklmnopqrstuvwxyz0123456789+/".toList

/-- Digit of the base64 alphabet. -/
def b64Char (n : Nat) : Char := b64Alphabet.getD n 'A'

/-- RFC 4648 base64 over byte values: models photon Base64Encode. -/
def b64Bytes : List Nat → List Char
  | [] => []
  | [a] => [b64Char (a / 4), b64Char (a % 4 * 16), '=', '=']
  | [a, b] =>
    [b64Char (a / 4), b64Char (a % 4 * 16 + b / 16), b64Char (b % 16 * 4), '=']
  | a :: b :: c :: rest =>
    b64Char (a / 4) :: b64Char (a % 4 * 16 + b / 16) ::
      b64Char (b % 16 * 4 + c / 64) :: b64Char (c % 64) :: b64Bytes rest

/-- Base64 of a string (credentials here are ASCII byte values). -/
def Base64Encode (s : String) : String :=
  String.mk (b64Bytes (s.toList.map Char.toNat))

/-- Outcome of one authenticate call: the Authorization request header
that was attached, if any, and the token on success. -/
structure AuthOut where
  header : Option String
  token : Option String
  deriving DecidableEq, Repr

/-- authenticate: GET the auth URL, attaching "Basic " followed by the
base64 of user:password exactly when the user name is nonempty.  Any
status other than 200 fails; otherwise at most 16 KiB of the body is
read and parsed as JSON and the token is extracted by parse_token.  The
JSON parser (rapidjson) is passed in as jp. -/
def authenticate (jp : String → Option (List (String × String)))
    (user pwd : String) (resp : HResp) : AuthOut :=
  let hdr : Option String :=
    if user ≠ "" then some ("Basic " ++ Base64Encode (user ++ ":" ++ pwd))
    else none
  if resp.status ≠ 200 then ⟨hdr, none⟩
  else ⟨hdr, parse_token (jp (String.mk (resp.body.toList.take 16384)))⟩

/-- The two variants of a resolved endpoint. -/
inductive UrlMode where
  | Redirect
  | Self
  deriving DecidableEq, Repr

/-- UrlInfo from the source: the mode together with its info string (the
redirect location, or the stored Authorization text of Self mode). -/
structure UrlInfo where
  mode : UrlMode
  info : String
  deriving DecidableEq, Repr

/-- Resolver failures: fail models a nullptr return through a
LOG_ERROR_RETURN path; crash models the dereference of the null token
pointer at op.req.headers.value_append(*token), which is reached when no
scope was parsed and the token pointer was never assigned. -/
inductive RErr where
  | fail
  | crash
  deriving DecidableEq, Repr

/-- Everything one get_actual_url execution observes: the probe
response, the credential callback result, the auth service response, the
scope_token cache contents, and the response to the re-issued GET. -/
structure Env where
  probe : HResp
  cred : String × String
  authResp : HResp
  scopeCache : List (String × String)
  reget : HResp

/-- The scope-token acquisition block of get_actual_url: with an empty
scope no acquisition happens and the token pointer stays null; otherwise
a cache hit returns the cached token, and on a miss the constructor
invokes the password callback and authenticate, signalling 401 through
the out parameter code on failure (and caching nothing). -/
def tokenAcq (jp : String → Option (List (String × String))) (e : Env)
    (scope : String) : Option String × Int :=
  if scope = "" then (none, 0)
  else
    match jFind e.scopeCache scope with
    | some t => (some t, 0)
    | none =>
      match (authenticate jp e.cred.1 e.cred.2 e.authResp).token with
      | some t => (some t, 0)
      | none => (none, 401)

/-- Result of get_actual_url: the UrlInfo or failure, the out parameter
code, and the scope-token release events (scope, poisoned flag) that
were performed. -/
structure ResolveOut where
  result : Except RErr UrlInfo
  code : Int
  releases : List (String × Bool)
  deriving Repr

/-- get_actual_url: parse the challenge from the probe, acquire a scope
token when a scope was parsed, then re-issue the GET on the original URL
with the token appended to a Bearer header.  A 3xx answer yields
Redirect with the Location header and a clean token release; 200 yields
Self storing "Bearer " followed by the token when the token is nonempty,
with a clean release; anything else (401/403 only logs a warning first)
releases the token poisoned and fails.  When no scope was parsed the
token pointer is still null at the header append: modelled as crash. -/
def get_actual_url (jp : String → Option (List (String × String)))
    (e : Env) : ResolveOut :=
  match get_scope_auth e.probe with
  | .error _ => ⟨.error .fail, 0, []⟩
  | .ok (_authurl, scope) =>
    match tokenAcq jp e scope with
    | (none, code) =>
      if scope ≠ "" then ⟨.error .fail, code, []⟩
      else ⟨.error .crash, code, []⟩
    | (some t, code) =>
      let st := e.reget.status
      if 300 ≤ st ∧ st < 400 then
        ⟨.ok ⟨.Redirect, e.reget.location⟩, code,
          if scope ≠ "" then [(scope, false)] else []⟩
      else if st = 200 then
        ⟨.ok ⟨.Self, if t ≠ "" then String.mk (bearerMark ++ t.toList) else ""⟩,
          code, if scope ≠ "" then [(scope, false)] else []⟩
      else
        ⟨.error .fail, code, if scope ≠ "" then [(scope, true)] else []⟩

/-- The ranged GET that get_data issues: effective URL after the
redirect choice and the accelerator rewrite, the optional Authorization
value, and the byte range offset to offset + count - 1. -/
structure Req where
  url : String
  auth : Option String
  rangeFrom : Nat
  rangeTo : Int
  deriving DecidableEq, Repr

/-- The Authorization value of the ranged GET: only in Self mode with a
nonempty stored info string; the source inserts "Bearer " and then
appends the stored info string to it. -/
def get_data_auth (info : UrlInfo) : Option String :=
  if info.mode = UrlMode.Self ∧ info.info ≠ "" then
    some (String.mk (bearerMark ++ info.info.toList))
  else none

/-- The URL the ranged GET actually targets: the redirect location in
Redirect mode, else the original URL; a nonempty accelerator address is
glued in front with a slash. -/
def effectiveUrl (url accel : String) (info : UrlInfo) : String :=
  let actual := if info.mode = UrlMode.Redirect then info.info else url
  if accel ≠ "" then accel ++ "/" ++ actual else actual

/-- What one get_data execution observes: the url_info cache content for
the URL (none forces the resolver to run), the environment the resolver
would observe, the accelerator address, and the ranged GET response. -/
structure GEnv where
  cached : Option UrlInfo
  renv : Env
  accel : String
  ranged : HResp

/-- Result of get_data: the returned long, op.status_code as the caller
observes it, the ranged request issued (none when get_data returned
before issuing it), the url_info release (false clean, true poisoned,
none when no release happened), and the scope-token releases performed
by a resolver run. -/
structure GOut where
  ret : Int
  status : Int
  request : Option Req
  release : Option Bool
  tokenReleases : List (String × Bool)
  deriving Repr

/-- op.status_code before any call is issued. -/
def initialStatus : Int := -1

/-- get_data: acquire url_info (running get_actual_url on a miss; its
401 signal and a null result propagate as the return value).  Pick the
redirect location in Redirect mode, else the original URL; a nonempty
accelerator address is glued in front with a slash.  Issue the ranged
GET with the Authorization value of get_data_auth; on 200/206 release
the url_info entry cleanly, otherwise release it poisoned.  The returned
long is the code out parameter in every completed case. -/
def get_data (jp : String → Option (List (String × String)))
    (url : String) (offset count : Nat) (g : GEnv) : Except RErr GOut :=
  let acq : Except RErr (Option UrlInfo × Int × List (String × Bool)) :=
    match g.cached with
    | some i => .ok (some i, 0, [])
    | none =>
      let r := get_actual_url jp g.renv
      match r.result with
      | .ok i => .ok (some i, r.code, r.releases)
      | .error .fail => .ok (none, r.code, r.releases)
      | .error .crash => .error .crash
  match acq with
  | .error er => .error er
  | .ok (none, code, tr) => .ok ⟨code, initialStatus, none, none, tr⟩
  | .ok (some info, code, tr) =>
    let req : Req := ⟨effectiveUrl url g.accel info, get_data_auth info, offset,
      (offset : Int) + (count : Int) - 1⟩
    let st := g.ranged.status
    if st = 200 ∨ st = 206 then
      .ok ⟨code, st, some req, some false, tr⟩
    else
      .ok ⟨code, st, some req, some true, tr⟩

/-- Width of size_t arithmetic. -/
def W64 : Int := 18446744073709551616

/-- Width of size_t arithmetic, as a natural number. -/
def W64n : Nat := 18446744073709551616

/-- The clamp at the head of the preadv loop, in size_t arithmetic
throughout: count and filesize are size_t and offset is off_t, so the
guard compares the wrapped sum (count + offset) mod 2 to the 64 with
filesize, and when it exceeds filesize the assignment
count = filesize - offset is also computed modulo 2 to the 64. -/
def clampCount (requested offset filesize : Nat) : Nat :=
  if (requested + offset) % W64n > filesize then
    (((filesize : Int) - (offset : Int)) % W64).toNat
  else requested

/-- The clamp as the specification words it: the requested count limited
to max(0, filesize - offset), stated with natural subtraction. -/
def clampCountSpec (requested offset filesize : Nat) : Nat :=
  min requested (filesize - offset)

/-- What one attempt of a retry loop observes: the status code of the
ranged GET, the length of the returned body, resource_size, and whether
the deadline had expired by the time the attempt failed. -/
structure Attempt where
  status : Int
  bodyLen : Nat
  size : Nat
  expired : Bool
  deriving DecidableEq, Repr

/-- The preadv retry loop after the clamp: on 200/206 readv streams the
body into the scatter list and returns at most the total capacity of the
original iovec (the unclamped requested count - the clamp only shapes
the Range header); otherwise ETIMEDOUT when the deadline expired, a
retry while the budget lasts, and ENOENT when it is spent. -/
def preadv_loop (requested : Nat) (f : Nat → Attempt) (i retry : Nat) :
    Except Errno Nat :=
  let a := f i
  if a.status = 200 ∨ a.status = 206 then .ok (min a.bodyLen requested)
  else if a.expired then .error .ETIMEDOUT
  else
    match retry with
    | 0 => .error .ENOENT
    | r + 1 => preadv_loop requested f (i + 1) r

/-- preadv on a file whose filesize is known: each attempt issues the
ranged GET for clampCount requested offset filesize bytes, and the loop
runs with a retry budget of 3.  The attempt oracle f gives the response
of each try. -/
def preadv (requested offset filesize : Nat) (f : Nat → Attempt) :
    Except Errno Nat :=
  preadv_loop requested f 0 3

/-- get_length: ranged GET of one byte, retried with a budget of 3;
ETIMEDOUT once the deadline has expired, EPERM when the budget runs out
on a 401/403, ENOENT when it runs out on any other failing status; on
200/206 the resource size of that response. -/
def get_length (f : Nat → Attempt) (i retry : Nat) : Except Errno Nat :=
  let a := f i
  if a.status = 200 ∨ a.status = 206 then .ok a.size
  else if a.expired then .error .ETIMEDOUT
  else if a.status = 401 ∨ a.status = 403 then
    match retry with
    | 0 => .error .EPERM
    | r + 1 => get_length f (i + 1) r
  else
    match retry with
    | 0 => .error .ENOENT
    | r + 1 => get_length f (i + 1) r

/-- n successive successful fstat calls against a server that
consistently reports size s for the blob: fstat runs get_length exactly
when the stored m_filesize is still 0 and stores the result.  Returns
the stored field and the number of assignments performed to it. -/
def fstatRun (s : Nat) : Nat → Nat × Nat
  | 0 => (0, 0)
  | n + 1 =>
    let p := fstatRun s n
    if p.1 = 0 then (s, p.2 + 1) else p

/-- The st_size returned by the fstat call following n earlier calls:
fetched fresh when the field is still 0, otherwise the field. -/
def fstatResult (s n : Nat) : Nat :=
  if (fstatRun s n).1 = 0 then s else (fstatRun s n).1

/-- Modelled from the spec: the photon ObjectCache (expirecontainer) is
not part of the sources; per the specification a constructor returning
absent (null/None) is not cached and is not memoized, while a present
result is installed.  acquire returns the cached value on a hit and
otherwise the constructor result. -/
def cacheAcquire (cache : List (String × String)) (key : String)
    (ctor : Option String) : Option String × List (String × String) :=
  match jFind cache key with
  | some v => (some v, cache)
  | none =>
    match ctor with
    | none => (none, cache)
    | some v => (some v, (key, v) :: cache)

/-- The condition under which the scope-token constructor inside
get_actual_url runs and fails: a challenge was parsed with a nonempty
scope, the scope-token cache misses, and authenticate fails. -/
def tokenCtorFailed (jp : String → Option (List (String × String)))
    (e : Env) : Bool :=
  match get_scope_auth e.probe with
  | .error _ => false
  | .ok (_, s) =>
    if s = "" then false
    else
      match jFind e.scopeCache s with
      | some _ => false
      | none =>
        match (authenticate jp e.cred.1 e.cred.2 e.authResp).token with
        | some _ => false
        | none => true

/-- A JSON parser that fails on every body: used for runs that never
reach the parser. -/
def jp0 : String → Option (List (String × String)) := fun _ => none

/-- Probe response of a public blob: 200 with no challenge header. -/
def pubProbe : HResp := ⟨200, none, "", "", 0⟩

/-- A response carrying a well-formed bearer challenge. -/
def chProbe : HResp :=
  ⟨401, some "Bearer realm=\"https://auth/token\",service=\"reg\",scope=\"repository:foo:pull\"",
   "", "", 0⟩

/-- Environment of a public blob resolution: the probe answers 200 with
no challenge, so no scope is parsed and no token acquired. -/
def pubEnv : Env := ⟨pubProbe, ("", ""), ⟨0, none, "", "", 0⟩, [], pubProbe⟩

/-- Environment whose challenge scope hits the token cache with token
"tok" and whose re-issued GET answers 200. -/
def selfEnv : Env :=
  ⟨chProbe, ("", ""), ⟨0, none, "", "", 0⟩,
   [("repository:foo:pull", "tok")], ⟨200, none, "", "", 0⟩⟩

/-- Environment whose challenge scope hits the token cache with token
"T" and whose re-issued GET answers 206. -/
def partialEnv : Env :=
  ⟨chProbe, ("", ""), ⟨0, none, "", "", 0⟩,
   [("repository:foo:pull", "T")], ⟨206, none, "", "", 0⟩⟩

/-- A challenge whose leading "bearer" text is lower case. -/
def lowerProbe : HResp :=
  ⟨401, some "bearer realm=\"https://auth/token\",service=\"reg\",scope=\"repository:foo:pull\"",
   "", "", 0⟩

/-- A challenge missing the scope key. -/
def noScopeProbe : HResp :=
  ⟨401, some "Bearer realm=\"https://auth/token\",service=\"reg\"", "", "", 0⟩

/-- Claim C1: the specification says a probe answering 2xx with no
challenge makes get_actual_url return Self with no bearer, issuing no
further GET and not failing.  The source instead falls through to the
re-issued GET and appends the never-assigned null token pointer to the
Authorization header: on this input the resolver reaches the modelled
crash rather than returning Self. -/
theorem C1_public_blob_crashes :
    (get_actual_url jp0 pubEnv).result = Except.error RErr.crash := rfl

/-- Claim C2: resolving a token-protected blob stores "Bearer tok" in
the Self info string, and the ranged GET of get_data then carries the
Authorization value "Bearer Bearer tok" - the Bearer text applied once
when the info string was stored and again when the header is inserted -
instead of the claimed "Bearer tok".  Redirect mode attaches no
Authorization value. -/
theorem C2_double_bearer :
    (get_actual_url jp0 selfEnv).result = Except.ok ⟨UrlMode.Self, "Bearer tok"⟩ ∧
    get_data jp0 "https://r/blob" 0 4
        ⟨some ⟨UrlMode.Self, "Bearer tok"⟩, selfEnv, "", ⟨206, none, "", "", 0⟩⟩ =
      Except.ok ⟨0, 206, some ⟨"https://r/blob", some "Bearer Bearer tok", 0, 3⟩,
        some false, []⟩ ∧
    get_data_auth ⟨UrlMode.Redirect, "https://cdn/abc"⟩ = none ∧
    (("Bearer Bearer tok" : String) == "Bearer tok") = false :=
  ⟨rfl, rfl, rfl, by decide⟩

/-- Claim C3 counterexample: with filesize 10, offset 20 and a request
of 4 bytes the clamp computes filesize - offset in size_t arithmetic and
underflows to 2 to the 64 minus 10, not to max(0, filesize - offset) = 0,
and the call fails with ENOENT (retrying against a server that rejects
the degenerate range with 416) instead of returning 0 bytes.  Moreover
with a request of 2 to the 64 minus 50 bytes at offset 100 of a 200-byte
blob, the guard sum count + offset wraps to 50 in size_t, the clamp is
skipped entirely, and the huge count goes into the Range header instead
of being limited to max(0, filesize - offset) = 100. -/
theorem C3_cex :
    clampCount 4 20 10 = 18446744073709551606 ∧
    clampCountSpec 4 20 10 = 0 ∧
    (clampCount 4 20 10 == clampCountSpec 4 20 10) = false ∧
    preadv 4 20 10 (fun _ => ⟨416, 0, 0, false⟩) = Except.error Errno.ENOENT ∧
    clampCount 18446744073709551566 100 200 = 18446744073709551566 ∧
    clampCountSpec 18446744073709551566 100 200 = 100 :=
  ⟨rfl, rfl, by decide, rfl, rfl, rfl⟩

/-- Claim C4 counterexample: a token-bearing re-GET answering 206 does
not return Self with a clean release; get_actual_url takes the
unexpected-status path, failing and releasing the scope token
poisoned. -/
theorem C4_cex :
    (get_actual_url jp0 partialEnv).result = Except.error RErr.fail ∧
    (get_actual_url jp0 partialEnv).releases = [("repository:foo:pull", true)] :=
  ⟨rfl, rfl⟩

/-- Claim C5 counterexample: on a blob of size 0 the stored m_filesize
never leaves its 0 sentinel, so two successful fstat calls assign the
field twice - it is not assigned at most once. -/
theorem C5_cex : (fstatRun 0 2).2 = 2 ∧ Nat.ble (fstatRun 0 2).2 1 = false := by
  decide

/-- Claim C6 counterexample: a challenge whose leading text is "bearer "
in lower case is rejected with EINVAL - the starts_with comparison of
the source compares bytes and is not case-insensitive. -/
theorem C6_cex : get_scope_auth lowerProbe = Except.error Errno.EINVAL := rfl

/-- One fstat call on top of the state after k calls. -/
theorem fstatRun_step (s k : Nat) :
    fstatRun s (k + 1) =
      if (fstatRun s k).1 = 0 then (s, (fstatRun s k).2 + 1)
      else fstatRun s k := rfl

/-- With a consistent server size s, the fstat field is either still the
0 sentinel or holds s: for s = 0 every call re-assigns, for nonzero s
the first call assigns and later calls leave the field alone. -/
theorem fstatRun_char (s : Nat) :
    ∀ n, (s = 0 → fstatRun s n = (0, n)) ∧
      (s ≠ 0 → fstatRun s n = if n = 0 then (0, 0) else (s, 1)) := by
  intro n
  induction n with
  | zero => exact ⟨fun _ => rfl, fun _ => rfl⟩
  | succ n ih =>
    constructor
    · intro h
      subst h
      rw [fstatRun_step, ih.1 rfl]
      simp
    · intro h
      rw [fstatRun_step, ih.2 h]
      cases n with
      | zero => simp
      | succ m => simp [h]

/-- Claim C5 amended: for a blob of nonzero size the filesize field is
assigned at most once and every successful fstat returns s; for a blob
of size 0 the 0 value doubles as the unknown sentinel, so the field is
re-assigned by every successful fstat call (though the returned st_size
is still s = 0 each time, under a server that reports the immutable
blob size consistently). -/
theorem C5_amended (s n : Nat) :
    fstatResult s n = s ∧
    (s ≠ 0 → (fstatRun s n).2 ≤ 1) ∧
    (s = 0 → (fstatRun s n).2 = n) := by
  have h := fstatRun_char s n
  by_cases hs : s = 0
  · subst hs
    have h0 := h.1 rfl
    simp [fstatResult, h0]
  · have h2 := h.2 hs
    refine ⟨?_, fun _ => ?_, fun h0 => absurd h0 hs⟩
    · unfold fstatResult
      rw [h2]
      cases n with
      | zero => simp
      | succ m => simp [hs]
    · rw [h2]
      cases n with
      | zero => simp
      | succ m => simp

/-- Witness for C5_amended at s = 0, n = 3: the returned size is always
0 while the field is assigned on all three calls. -/
theorem C5_amended_witness :
    fstatResult 0 3 = 0 ∧ (fstatRun 0 3).2 = 3 :=
  ⟨(C5_amended 0 3).1, (C5_amended 0 3).2.2 rfl⟩

/-- Unfolding of get_length with retries remaining. -/
theorem get_length_succ (f : Nat → Attempt) (i r : Nat) :
    get_length f i (r + 1) =
      if (f i).status = 200 ∨ (f i).status = 206 then Except.ok (f i).size
      else if (f i).expired then Except.error Errno.ETIMEDOUT
      else if (f i).status = 401 ∨ (f i).status = 403 then get_length f (i + 1) r
      else get_length f (i + 1) r := rfl

/-- Unfolding of get_length with the retry budget spent. -/
theorem get_length_zero (f : Nat → Attempt) (i : Nat) :
    get_length f i 0 =
      if (f i).status = 200 ∨ (f i).status = 206 then Except.ok (f i).size
      else if (f i).expired then Except.error Errno.ETIMEDOUT
      else if (f i).status = 401 ∨ (f i).status = 403 then Except.error Errno.EPERM
      else Except.error Errno.ENOENT := rfl

/-- A failing, unexpired get_length attempt consumes one retry. -/
theorem get_length_step (f : Nat → Attempt) (i r : Nat)
    (hfail : ¬ ((f i).status = 200 ∨ (f i).status = 206))
    (hex : (f i).expired = false) :
    get_length f i (r + 1) = get_length f (i + 1) r := by
  rw [get_length_succ, if_neg hfail, if_neg (by simp [hex]), ite_self]

/-- A failing, unexpired get_length attempt with the budget spent ends
in EPERM on 401/403 and in ENOENT otherwise. -/
theorem get_length_last (f : Nat → Attempt) (i : Nat)
    (hfail : ¬ ((f i).status = 200 ∨ (f i).status = 206))
    (hex : (f i).expired = false) :
    get_length f i 0 =
      if (f i).status = 401 ∨ (f i).status = 403 then Except.error Errno.EPERM
      else Except.error Errno.ENOENT := by
  rw [get_length_zero, if_neg hfail, if_neg (by simp [hex])]

/-- Claim C7: the error discipline of get_length.  A 200/206 attempt
returns that response's resource size; a failure with the deadline
already expired is ETIMEDOUT; when all 4 attempts (1 try plus 3 retries)
fail unexpired with 401/403 the result is EPERM, and when they all fail
unexpired with statuses that are neither success nor 401/403 it is
ENOENT. -/
theorem C7_get_length (f : Nat → Attempt) :
    (((f 0).status = 200 ∨ (f 0).status = 206) →
      get_length f 0 3 = Except.ok (f 0).size) ∧
    (¬ ((f 0).status = 200 ∨ (f 0).status = 206) → (f 0).expired = true →
      get_length f 0 3 = Except.error Errno.ETIMEDOUT) ∧
    ((∀ i, i ≤ 3 → ((f i).status = 401 ∨ (f i).status = 403) ∧
        (f i).expired = false) →
      get_length f 0 3 = Except.error Errno.EPERM) ∧
    ((∀ i, i ≤ 3 → ¬ ((f i).status = 200 ∨ (f i).status = 206) ∧
        ¬ ((f i).status = 401 ∨ (f i).status = 403) ∧ (f i).expired = false) →
      get_length f 0 3 = Except.error Errno.ENOENT) := by
  refine ⟨fun h => ?_, fun h he => ?_, fun h => ?_, fun h => ?_⟩
  · rw [get_length_succ f 0 2, if_pos h]
  · rw [get_length_succ f 0 2, if_neg h, if_pos he]
  · have h0 := h 0 (by omega)
    have h1 := h 1 (by omega)
    have h2 := h 2 (by omega)
    have h3 := h 3 (by omega)
    have n0 : ¬ ((f 0).status = 200 ∨ (f 0).status = 206) := by
      rcases h0.1 with hh | hh <;> omega
    have n1 : ¬ ((f 1).status = 200 ∨ (f 1).status = 206) := by
      rcases h1.1 with hh | hh <;> omega
    have n2 : ¬ ((f 2).status = 200 ∨ (f 2).status = 206) := by
      rcases h2.1 with hh | hh <;> omega
    have n3 : ¬ ((f 3).status = 200 ∨ (f 3).status = 206) := by
      rcases h3.1 with hh | hh <;> omega
    rw [get_length_step f 0 2 n0 h0.2, get_length_step f 1 1 n1 h1.2,
      get_length_step f 2 0 n2 h2.2, get_length_last f 3 n3 h3.2, if_pos h3.1]
  · have h0 := h 0 (by omega)
    have h1 := h 1 (by omega)
    have h2 := h 2 (by omega)
    have h3 := h 3 (by omega)
    rw [get_length_step f 0 2 h0.1 h0.2.2, get_length_step f 1 1 h1.1 h1.2.2,
      get_length_step f 2 0 h2.1 h2.2.2, get_length_last f 3 h3.1 h3.2.2,
      if_neg h3.2.1]

/-- Witness for C7_get_length: four 401 attempts produce EPERM and four
500 attempts produce ENOENT. -/
theorem C7_get_length_witness :
    get_length (fun _ => ⟨401, 0, 0, false⟩) 0 3 = Except.error Errno.EPERM ∧
    get_length (fun _ => ⟨500, 0, 0, false⟩) 0 3 = Except.error Errno.ENOENT :=
  ⟨(C7_get_length (fun _ => ⟨401, 0, 0, false⟩)).2.2.1
      (fun i _ => ⟨Or.inl rfl, rfl⟩),
   (C7_get_length (fun _ => ⟨500, 0, 0, false⟩)).2.2.2
      (fun i _ => ⟨by decide, by decide, rfl⟩)⟩

/-- Claim C8: the token acquirer.  The Basic header carrying the base64
of user:password is attached exactly when the user name is nonempty; on
a 200 response the token comes from parsing at most 16 KiB of the body,
with the JSON member "token" preferred and "access_token" the fallback;
any other status yields no token; and a failed constructor result is not
installed in the scope-token cache. -/
theorem C8_authenticate (jp : String → Option (List (String × String)))
    (user pwd : String) (resp : HResp) (d : List (String × String)) (t : String)
    (cache : List (String × String)) (key : String) :
    ((authenticate jp user pwd resp).header =
      if user ≠ "" then some ("Basic " ++ Base64Encode (user ++ ":" ++ pwd))
      else none) ∧
    (resp.status = 200 →
      (authenticate jp user pwd resp).token =
        parse_token (jp (String.mk (resp.body.toList.take 16384)))) ∧
    (resp.status ≠ 200 → (authenticate jp user pwd resp).token = none) ∧
    (jFind d "token" = some t → parse_token (some d) = some t) ∧
    (jFind d "token" = none →
      parse_token (some d) = jFind d "access_token") ∧
    (cacheAcquire cache key none).2 = cache ∧
    (jFind cache key = none → (cacheAcquire cache key none).1 = none) := by
  refine ⟨?_, fun h => ?_, fun h => ?_, fun h => ?_, fun h => ?_, ?_, fun h => ?_⟩
  · unfold authenticate
    by_cases h200 : resp.status ≠ 200
    · rw [if_pos h200]
    · rw [if_neg h200]
  · unfold authenticate
    rw [if_neg (by omega : ¬ resp.status ≠ 200)]
  · unfold authenticate
    rw [if_pos h]
  · show (match jFind d "token" with
      | some u => some u
      | none => jFind d "access_token") = some t
    rw [h]
  · show (match jFind d "token" with
      | some u => some u
      | none => jFind d "access_token") = jFind d "access_token"
    rw [h]
  · unfold cacheAcquire
    cases hj : jFind cache key <;> simp
  · unfold cacheAcquire
    rw [h]

/-- Witness for C8_authenticate: user "u", password "p", a 200 response
whose body parses to a document with member token = T. -/
theorem C8_authenticate_witness :
    (authenticate (fun _ => some [("token", "T")]) "u" "p"
      ⟨200, none, "", "", 0⟩).token = some "T" ∧
    (authenticate (fun _ => some [("token", "T")]) "u" "p"
      ⟨200, none, "", "", 0⟩).header = some "Basic dTpw" ∧
    (cacheAcquire [] "k" none).2 = [] :=
  ⟨Eq.trans ((C8_authenticate (fun _ => some [("token", "T")]) "u" "p"
      ⟨200, none, "", "", 0⟩ [("token", "T")] "T" [] "k").2.1 rfl) rfl,
   Eq.trans ((C8_authenticate (fun _ => some [("token", "T")]) "u" "p"
      ⟨200, none, "", "", 0⟩ [("token", "T")] "T" [] "k").1) rfl,
   (C8_authenticate (fun _ => some [("token", "T")]) "u" "p"
      ⟨200, none, "", "", 0⟩ [("token", "T")] "T" [] "k").2.2.2.2.2.1⟩

/-- The behavior of get_actual_url once a challenge with a nonempty
scope has been parsed and the token acquisition has produced a token:
the outcome is decided entirely by the status of the re-issued GET. -/
theorem get_actual_url_cases (jp : String → Option (List (String × String)))
    (e : Env) (a s t : String) (cd : Int)
    (hs : get_scope_auth e.probe = Except.ok (a, s)) (hne : s ≠ "")
    (hacq : tokenAcq jp e s = (some t, cd)) :
    get_actual_url jp e =
      if 300 ≤ e.reget.status ∧ e.reget.status < 400 then
        ⟨Except.ok ⟨UrlMode.Redirect, e.reget.location⟩, cd, [(s, false)]⟩
      else if e.reget.status = 200 then
        ⟨Except.ok ⟨UrlMode.Self,
          if t ≠ "" then String.mk (bearerMark ++ t.toList) else ""⟩, cd,
          [(s, false)]⟩
      else ⟨Except.error RErr.fail, cd, [(s, true)]⟩ := by
  unfold get_actual_url
  simp only [hs, hacq, if_pos hne]

/-- Claim C4 amended: with a parsed scope and an acquired token, only a
200 answer to the re-issued GET returns Self (storing "Bearer " and the
token when nonempty) with a clean scope-token release; a 206 answer is
not treated like 200 - it takes the unexpected-status path, failing and
releasing the scope token poisoned. -/
theorem C4_amended (jp : String → Option (List (String × String)))
    (e : Env) (a s t : String) (cd : Int)
    (hs : get_scope_auth e.probe = Except.ok (a, s)) (hne : s ≠ "")
    (hacq : tokenAcq jp e s = (some t, cd)) :
    (e.reget.status = 200 →
      (get_actual_url jp e).result = Except.ok ⟨UrlMode.Self,
        if t ≠ "" then String.mk (bearerMark ++ t.toList) else ""⟩ ∧
      (get_actual_url jp e).releases = [(s, false)]) ∧
    (e.reget.status = 206 →
      (get_actual_url jp e).result = Except.error RErr.fail ∧
      (get_actual_url jp e).releases = [(s, true)]) := by
  have h := get_actual_url_cases jp e a s t cd hs hne hacq
  constructor
  · intro h200
    rw [h, if_neg (by omega), if_pos h200]
    exact ⟨rfl, rfl⟩
  · intro h206
    rw [h, if_neg (by omega), if_neg (by omega)]
    exact ⟨rfl, rfl⟩

/-- Witness for C4_amended: the cached token "tok" and a 200 re-GET give
Self with the stored value "Bearer tok" and a clean release. -/
theorem C4_amended_witness :
    (get_actual_url jp0 selfEnv).result =
      Except.ok ⟨UrlMode.Self, "Bearer tok"⟩ ∧
    (get_actual_url jp0 selfEnv).releases = [("repository:foo:pull", false)] := by
  have h := (C4_amended jp0 selfEnv
    "https://auth/token?service=reg&scope=repository:foo:pull"
    "repository:foo:pull" "tok" 0 rfl (by decide) rfl).1 rfl
  exact ⟨h.1, h.2⟩

/-- Claim C9: whenever get_actual_url acquires a scope-token handle
(nonempty scope, acquisition succeeded), every return path performs
exactly one release of it: clean on the redirect path and on the 200
path, poisoned on every other path. -/
theorem C9_release_discipline (jp : String → Option (List (String × String)))
    (e : Env) (a s t : String) (cd : Int)
    (hs : get_scope_auth e.probe = Except.ok (a, s)) (hne : s ≠ "")
    (hacq : tokenAcq jp e s = (some t, cd)) :
    (get_actual_url jp e).releases =
      [(s, if (300 ≤ e.reget.status ∧ e.reget.status < 400) ∨ e.reget.status = 200
           then false else true)] ∧
    (get_actual_url jp e).releases.length = 1 := by
  have h := get_actual_url_cases jp e a s t cd hs hne hacq
  rw [h]
  by_cases h3 : 300 ≤ e.reget.status ∧ e.reget.status < 400
  · rw [if_pos h3, if_pos (Or.inl h3)]
    exact ⟨rfl, rfl⟩
  · rw [if_neg h3]
    by_cases h2 : e.reget.status = 200
    · rw [if_pos h2, if_pos (Or.inr h2)]
      exact ⟨rfl, rfl⟩
    · rw [if_neg h2, if_neg (by tauto)]
      exact ⟨rfl, rfl⟩

/-- Witness for C9_release_discipline: a 302 re-GET performs exactly one
clean release of the acquired scope token. -/
theorem C9_release_discipline_witness :
    (get_actual_url jp0 ⟨chProbe, ("", ""), ⟨0, none, "", "", 0⟩,
        [("repository:foo:pull", "T")],
        ⟨302, none, "https://cdn/abc", "", 0⟩⟩).releases =
      [("repository:foo:pull", false)] ∧
    (get_actual_url jp0 ⟨chProbe, ("", ""), ⟨0, none, "", "", 0⟩,
        [("repository:foo:pull", "T")],
        ⟨302, none, "https://cdn/abc", "", 0⟩⟩).releases.length = 1 := by
  have h := C9_release_discipline jp0
    ⟨chProbe, ("", ""), ⟨0, none, "", "", 0⟩, [("repository:foo:pull", "T")],
      ⟨302, none, "https://cdn/abc", "", 0⟩⟩
    "https://auth/token?service=reg&scope=repository:foo:pull"
    "repository:foo:pull" "T" 0 rfl (by decide) rfl
  exact ⟨h.1, h.2⟩

/-- Unfolding of the preadv loop with retries remaining. -/
theorem preadv_loop_succ (requested : Nat) (f : Nat → Attempt) (i r : Nat) :
    preadv_loop requested f i (r + 1) =
      if (f i).status = 200 ∨ (f i).status = 206 then
        Except.ok (min (f i).bodyLen requested)
      else if (f i).expired then Except.error Errno.ETIMEDOUT
      else preadv_loop requested f (i + 1) r := rfl

/-- Unfolding of the preadv loop with the retry budget spent. -/
theorem preadv_loop_zero (requested : Nat) (f : Nat → Attempt) (i : Nat) :
    preadv_loop requested f i 0 =
      if (f i).status = 200 ∨ (f i).status = 206 then
        Except.ok (min (f i).bodyLen requested)
      else if (f i).expired then Except.error Errno.ETIMEDOUT
      else Except.error Errno.ENOENT := rfl

/-- A successful preadv loop returns what readv produced on the attempt
that succeeded: the body length capped by the iovec capacity. -/
theorem preadv_loop_ok (requested : Nat) (f : Nat → Attempt) :
    ∀ retry i n, preadv_loop requested f i retry = Except.ok n →
      ∃ j, n = min (f j).bodyLen requested := by
  intro retry
  induction retry with
  | zero =>
    intro i n h
    rw [preadv_loop_zero] at h
    by_cases hok : (f i).status = 200 ∨ (f i).status = 206
    · rw [if_pos hok] at h
      injection h with h2
      exact ⟨i, h2.symm⟩
    · rw [if_neg hok] at h
      by_cases he : (f i).expired = true
      · rw [if_pos he] at h
        cases h
      · rw [if_neg he] at h
        cases h
  | succ r ih =>
    intro i n h
    rw [preadv_loop_succ] at h
    by_cases hok : (f i).status = 200 ∨ (f i).status = 206
    · rw [if_pos hok] at h
      injection h with h2
      exact ⟨i, h2.symm⟩
    · rw [if_neg hok] at h
      by_cases he : (f i).expired = true
      · rw [if_pos he] at h
        cases h
      · rw [if_neg he] at h
        exact ih (i + 1) n h

/-- Claim C3 amended: for offset ≤ filesize, when the size_t sum
count + offset does not wrap (requested + offset below 2 to the 64) the
clamp equals min(requested, filesize - offset), and a successful preadv
against a server that never sends more than the requested range returns
at most min(requested, filesize - offset) bytes.  For offset > filesize
the clamp underflows in size_t arithmetic instead of being 0, so the
call issues a degenerate ranged GET and fails rather than returning 0,
and when the guard sum wraps below filesize the clamp is skipped
entirely (see the counterexample for both). -/
theorem C3_amended (requested offset filesize n : Nat) (f : Nat → Attempt)
    (hoff : offset ≤ filesize)
    (hro : requested + offset < 18446744073709551616)
    (hbody : ∀ j, (f j).bodyLen ≤ clampCount requested offset filesize)
    (hok : preadv requested offset filesize f = Except.ok n) :
    clampCount requested offset filesize = min requested (filesize - offset) ∧
    n ≤ min requested (filesize - offset) := by
  have hclamp : clampCount requested offset filesize =
      min requested (filesize - offset) := by
    unfold clampCount
    rw [Nat.mod_eq_of_lt (show requested + offset < W64n from hro)]
    by_cases hgt : requested + offset > filesize
    · rw [if_pos hgt]
      have h1 : ((filesize : Int) - (offset : Int)) % W64 =
          (filesize : Int) - (offset : Int) := by
        unfold W64
        omega
      rw [h1]
      omega
    · rw [if_neg hgt]
      omega
  refine ⟨hclamp, ?_⟩
  obtain ⟨j, hj⟩ := preadv_loop_ok requested f 3 0 n hok
  have hb := hbody j
  rw [hclamp] at hb
  omega

/-- Witness for C3_amended: requested 5 bytes at offset 2 of a 4-byte
blob; the body of the successful attempt is 1 byte. -/
theorem C3_amended_witness :
    clampCount 5 2 4 = min 5 (4 - 2) ∧ 1 ≤ min 5 (4 - 2) :=
  C3_amended 5 2 4 1 (fun _ => ⟨200, 1, 0, false⟩) (by decide) (by decide)
    (fun _ => (by decide : (1 : Nat) ≤ clampCount 5 2 4)) rfl

/-- The character list underlying a constructed string. -/
theorem toList_mk (l : List Char) : (String.mk l).toList = l := rfl

/-- A list always passes the leading-text test against itself followed
by anything. -/
theorem leadsWith_self (p r : List Char) : leadsWith p (p ++ r) = true := by
  induction p with
  | nil => rfl
  | cons c cs ih => simp [leadsWith, ih]

/-- dropWhile on the quote character leaves a quote-free list alone. -/
theorem dropQ_head (v : List Char) (h : '"' ∉ v) :
    v.dropWhile (· == '"') = v := by
  cases v with
  | nil => rfl
  | cons c cs =>
    have hc : ¬ ((c == '"') = true) := by
      simp only [beq_iff_eq]
      intro hcq
      exact h (by rw [hcq]; exact List.mem_cons_self _ _)
    rw [List.dropWhile_cons, if_neg hc]

/-- dropWhile on the quote character over a quote-free list followed by
one closing quote. -/
theorem dropQ_append (v : List Char) (h : '"' ∉ v) :
    (v ++ ['"']).dropWhile (· == '"') = if v = [] then [] else v ++ ['"'] := by
  cases v with
  | nil => rfl
  | cons c cs =>
    have hc : ¬ ((c == '"') = true) := by
      simp only [beq_iff_eq]
      intro hcq
      exact h (by rw [hcq]; exact List.mem_cons_self _ _)
    rw [List.cons_append, List.dropWhile_cons, if_neg hc, if_neg (by simp)]

/-- Trimming quotes from a value wrapped in one pair of quotes recovers
the value. -/
theorem trimQuotes_wrap (v : List Char) (h : '"' ∉ v) :
    trimQuotes ('"' :: (v ++ ['"'])) = v := by
  unfold trimQuotes
  rw [List.dropWhile_cons, if_pos (by simp), dropQ_append v h]
  by_cases hv : v = []
  · rw [if_pos hv, hv]
    rfl
  · rw [if_neg hv, List.reverse_append,
      show (['"'] : List Char).reverse = ['"'] from rfl,
      List.singleton_append, List.dropWhile_cons, if_pos (by simp),
      dropQ_head v.reverse (by simpa using h)]
    exact List.reverse_reverse v

/-- Unfolding of the comma splitter on an empty list. -/
theorem splitCommaAux_nil (acc : List Char) :
    splitCommaAux [] acc = [acc.reverse] := rfl

/-- Unfolding of the comma splitter on one character. -/
theorem splitCommaAux_cons (c : Char) (cs acc : List Char) :
    splitCommaAux (c :: cs) acc =
      if c = ',' then acc.reverse :: splitCommaAux cs []
      else splitCommaAux cs (c :: acc) := rfl

/-- The comma splitter over a comma-free list yields that list alone. -/
theorem splitCommaAux_no (a : List Char) (h : ',' ∉ a) :
    ∀ acc, splitCommaAux a acc = [acc.reverse ++ a] := by
  induction a with
  | nil =>
    intro acc
    rw [splitCommaAux_nil, List.append_nil]
  | cons c cs ih =>
    intro acc
    have hc : ¬ c = ',' := fun hcq => h (List.mem_cons.mpr (Or.inl hcq.symm))
    rw [splitCommaAux_cons, if_neg hc,
      ih (fun hm => h (List.mem_cons_of_mem _ hm)) (c :: acc)]
    simp

/-- The comma splitter cuts at the first comma after a comma-free
segment. -/
theorem splitCommaAux_split (a : List Char) (h : ',' ∉ a) :
    ∀ b acc, splitCommaAux (a ++ ',' :: b) acc =
      (acc.reverse ++ a) :: splitComma b := by
  induction a with
  | nil =>
    intro b acc
    rw [List.nil_append, splitCommaAux_cons, if_pos rfl, List.append_nil]
    rfl
  | cons c cs ih =>
    intro b acc
    have hc : ¬ c = ',' := fun hcq => h (List.mem_cons.mpr (Or.inl hcq.symm))
    rw [List.cons_append, splitCommaAux_cons, if_neg hc,
      ih (fun hm => h (List.mem_cons_of_mem _ hm)) b (c :: acc)]
    simp

/-- splitComma at the first comma. -/
theorem splitComma_split (a : List Char) (h : ',' ∉ a) (b : List Char) :
    splitComma (a ++ ',' :: b) = a :: splitComma b := by
  unfold splitComma
  rw [splitCommaAux_split a h b []]
  simp [splitComma]

/-- splitComma of a comma-free list. -/
theorem splitComma_no (a : List Char) (h : ',' ∉ a) : splitComma a = [a] := by
  unfold splitComma
  rw [splitCommaAux_no a h []]
  simp

/-- Unfolding of the equals-sign cutter on one character. -/
theorem kvOfTokenAux_cons (acc : List Char) (c : Char) (rest : List Char) :
    kvOfTokenAux acc (c :: rest) =
      if c = '=' then (acc.reverse, rest) else kvOfTokenAux (c :: acc) rest := rfl

/-- The equals-sign cutter splits a token whose key part has no equals
sign at that first equals sign. -/
theorem kvOfTokenAux_split (key : List Char) (h : '=' ∉ key) :
    ∀ rest acc, kvOfTokenAux acc (key ++ '=' :: rest) =
      (acc.reverse ++ key, rest) := by
  induction key with
  | nil =>
    intro rest acc
    rw [List.nil_append, kvOfTokenAux_cons, if_pos rfl, List.append_nil]
  | cons c cs ih =>
    intro rest acc
    have hc : ¬ c = '=' := fun hcq => h (List.mem_cons.mpr (Or.inl hcq.symm))
    rw [List.cons_append, kvOfTokenAux_cons, if_neg hc,
      ih (fun hm => h (List.mem_cons_of_mem _ hm)) rest (c :: acc)]
    simp

/-- kvOfToken on a well-formed key=value token. -/
theorem kvOfToken_keyed (key v : List Char) (h : '=' ∉ key) :
    kvOfToken (key ++ '=' :: v) = (key, trimQuotes v) := by
  show ((kvOfTokenAux [] (key ++ '=' :: v)).1,
    trimQuotes (kvOfTokenAux [] (key ++ '=' :: v)).2) = (key, trimQuotes v)
  rw [kvOfTokenAux_split key h v []]
  simp

/-- str_to_kvmap of a line made of three comma-separated tokens. -/
theorem str_to_kvmap_split3 (t1 t2 t3 : List Char)
    (h1 : ',' ∉ t1) (h2 : ',' ∉ t2) (h3 : ',' ∉ t3) :
    str_to_kvmap (t1 ++ ',' :: (t2 ++ ',' :: t3)) =
      [kvOfToken t1, kvOfToken t2, kvOfToken t3] := by
  unfold str_to_kvmap
  rw [splitComma_split t1 h1, splitComma_split t2 h2, splitComma_no t3 h3]
  rfl

/-- Unfolding of kvFind over one entry. -/
theorem kvFind_cons (p : List Char × List Char)
    (rest : List (List Char × List Char)) (k : List Char) :
    kvFind (p :: rest) k = if p.1 = k then some p.2 else kvFind rest k := rfl

/-- A comma never occurs in a quoted key=value token built from
comma-free pieces. -/
theorem comma_not_in_token (key v : List Char) (hk : ',' ∉ key)
    (hv : ',' ∉ v) : ',' ∉ (key ++ '=' :: '"' :: (v ++ ['"'])) := by
  intro hm
  rcases List.mem_append.mp hm with hm | hm
  · exact hk hm
  · rcases List.mem_cons.mp hm with hm | hm
    · exact absurd hm (by decide)
    · rcases List.mem_cons.mp hm with hm | hm
      · exact absurd hm (by decide)
      · rcases List.mem_append.mp hm with hm | hm
        · exact hv hm
        · exact absurd hm (by decide)

/-- get_scope_auth on a 401 response carrying a challenge line reduces
to the leading-text test and the keyed lookup of realm, service and
scope. -/
theorem get_scope_auth_challenge (line : String) :
    get_scope_auth ⟨401, some line, "", "", 0⟩ =
      (if leadsWith bearerMark line.toList then
        match kvFind (str_to_kvmap (line.toList.drop bearerMark.length))
                "realm".toList,
              kvFind (str_to_kvmap (line.toList.drop bearerMark.length))
                "service".toList,
              kvFind (str_to_kvmap (line.toList.drop bearerMark.length))
                "scope".toList with
        | some realm, some service, some scope =>
          Except.ok (String.mk (realm ++ "?service=".toList ++ service ++
            "&scope=".toList ++ scope), String.mk scope)
        | _, _, _ => Except.error Errno.EINVAL
      else Except.error Errno.EINVAL) := rfl

/-- Claim C6 amended: the challenge parser accepts exactly the values
whose leading seven bytes are the literal "Bearer " (the comparison is
case sensitive, so "bearer " and "BEARER " are rejected - see the
counterexample), strips that text, splits on commas, cuts each token at
its first equals sign, strips the surrounding double quotes from the
value, requires all three keys realm, service and scope, and composes
realm?service=SERVICE&scope=SCOPE with the values inserted verbatim;
a challenge missing one of the required keys fails with EINVAL. -/
theorem C6_amended (realm service scope : List Char)
    (hr : ',' ∉ realm) (hs : ',' ∉ service) (hc : ',' ∉ scope)
    (qr : '"' ∉ realm) (qs : '"' ∉ service) (qc : '"' ∉ scope) :
    get_scope_auth ⟨401,
      some (String.mk (bearerMark ++
        (("realm".toList ++ '=' :: '"' :: (realm ++ ['"'])) ++ ',' ::
          (("service".toList ++ '=' :: '"' :: (service ++ ['"'])) ++ ',' ::
            ("scope".toList ++ '=' :: '"' :: (scope ++ ['"'])))))),
      "", "", 0⟩ =
      Except.ok (String.mk (realm ++ "?service=".toList ++ service ++
        "&scope=".toList ++ scope), String.mk scope) ∧
    get_scope_auth noScopeProbe = Except.error Errno.EINVAL := by
  refine ⟨?_, rfl⟩
  rw [get_scope_auth_challenge, toList_mk, if_pos (leadsWith_self _ _),
    List.drop_left,
    str_to_kvmap_split3 _ _ _
      (comma_not_in_token _ _ (by decide) hr)
      (comma_not_in_token _ _ (by decide) hs)
      (comma_not_in_token _ _ (by decide) hc),
    kvOfToken_keyed _ _ (by decide : '=' ∉ "realm".toList),
    kvOfToken_keyed _ _ (by decide : '=' ∉ "service".toList),
    kvOfToken_keyed _ _ (by decide : '=' ∉ "scope".toList),
    trimQuotes_wrap realm qr, trimQuotes_wrap service qs,
    trimQuotes_wrap scope qc]
  have k1 : kvFind [("realm".toList, realm), ("service".toList, service),
      ("scope".toList, scope)] "realm".toList = some realm := by
    rw [kvFind_cons, if_pos rfl]
  have k2 : kvFind [("realm".toList, realm), ("service".toList, service),
      ("scope".toList, scope)] "service".toList = some service := by
    rw [kvFind_cons, if_neg (by decide : ¬ "realm".toList = "service".toList),
      kvFind_cons, if_pos rfl]
  have k3 : kvFind [("realm".toList, realm), ("service".toList, service),
      ("scope".toList, scope)] "scope".toList = some scope := by
    rw [kvFind_cons, if_neg (by decide : ¬ "realm".toList = "scope".toList),
      kvFind_cons, if_neg (by decide : ¬ "service".toList = "scope".toList),
      kvFind_cons, if_pos rfl]
  rw [k1, k2, k3]

/-- Witness for C6_amended: the well-formed challenge of chProbe parses
into the composed auth URL and its scope. -/
theorem C6_amended_witness :
    get_scope_auth chProbe =
      Except.ok ("https://auth/token?service=reg&scope=repository:foo:pull",
        "repository:foo:pull") :=
  (C6_amended "https://auth/token".toList "reg".toList
    "repository:foo:pull".toList (by decide) (by decide) (by decide)
    (by decide) (by decide) (by decide)).1

/-- The out parameter code of get_actual_url is 401 exactly when the
scope-token constructor ran and failed; in that case the resolver
returns null, and in every other completed case the code is 0. -/
theorem get_actual_url_code (jp : String → Option (List (String × String)))
    (e : Env) :
    ((get_actual_url jp e).code = if tokenCtorFailed jp e then 401 else 0) ∧
    (tokenCtorFailed jp e = true →
      (get_actual_url jp e).result = Except.error RErr.fail) := by
  unfold get_actual_url tokenCtorFailed tokenAcq
  cases hsc : get_scope_auth e.probe with
  | error er => simp
  | ok p =>
    obtain ⟨a, s⟩ := p
    by_cases hse : s = ""
    · simp [hse]
    · simp only [if_neg hse]
      cases hj : jFind e.scopeCache s with
      | some t => simp [hse, apply_ite ResolveOut.code]
      | none =>
        cases ht : (authenticate jp e.cred.1 e.cred.2 e.authResp).token with
        | some t => simp [hse, apply_ite ResolveOut.code]
        | none => simp [hse]

/-- get_data on a url_info cache hit. -/
theorem get_data_hit (jp : String → Option (List (String × String)))
    (url : String) (offset count : Nat) (g : GEnv) (i : UrlInfo)
    (hg : g.cached = some i) :
    get_data jp url offset count g =
      (if g.ranged.status = 200 ∨ g.ranged.status = 206 then
        Except.ok ⟨0, g.ranged.status, some ⟨effectiveUrl url g.accel i,
          get_data_auth i, offset, (offset : Int) + (count : Int) - 1⟩,
          some false, []⟩
      else
        Except.ok ⟨0, g.ranged.status, some ⟨effectiveUrl url g.accel i,
          get_data_auth i, offset, (offset : Int) + (count : Int) - 1⟩,
          some true, []⟩) := by
  simp only [get_data, hg]

/-- get_data on a cache miss whose resolver run succeeds. -/
theorem get_data_miss_ok (jp : String → Option (List (String × String)))
    (url : String) (offset count : Nat) (g : GEnv) (i : UrlInfo)
    (hg : g.cached = none)
    (hr : (get_actual_url jp g.renv).result = Except.ok i) :
    get_data jp url offset count g =
      (if g.ranged.status = 200 ∨ g.ranged.status = 206 then
        Except.ok ⟨(get_actual_url jp g.renv).code, g.ranged.status,
          some ⟨effectiveUrl url g.accel i, get_data_auth i, offset,
            (offset : Int) + (count : Int) - 1⟩,
          some false, (get_actual_url jp g.renv).releases⟩
      else
        Except.ok ⟨(get_actual_url jp g.renv).code, g.ranged.status,
          some ⟨effectiveUrl url g.accel i, get_data_auth i, offset,
            (offset : Int) + (count : Int) - 1⟩,
          some true, (get_actual_url jp g.renv).releases⟩) := by
  simp only [get_data, hg, hr]

/-- get_data on a cache miss whose resolver run returns null. -/
theorem get_data_miss_fail (jp : String → Option (List (String × String)))
    (url : String) (offset count : Nat) (g : GEnv)
    (hg : g.cached = none)
    (hr : (get_actual_url jp g.renv).result = Except.error RErr.fail) :
    get_data jp url offset count g =
      Except.ok ⟨(get_actual_url jp g.renv).code, initialStatus, none, none,
        (get_actual_url jp g.renv).releases⟩ := by
  simp only [get_data, hg, hr]

/-- get_data on a cache miss whose resolver run crashes. -/
theorem get_data_miss_crash (jp : String → Option (List (String × String)))
    (url : String) (offset count : Nat) (g : GEnv)
    (hg : g.cached = none)
    (hr : (get_actual_url jp g.renv).result = Except.error RErr.crash) :
    get_data jp url offset count g = Except.error RErr.crash := by
  simp only [get_data, hg, hr]

/-- Claim C10: for every completed get_data call the returned long is
401 exactly when the scope-token constructor inside the url_info
constructor ran and failed (which requires a cache miss), and 0 in every
other case - in particular a failing ranged GET still returns 0, so HTTP
success or failure reaches the caller only through op.status_code; a
ranged GET that was issued releases the url_info entry cleanly on
200/206 and poisoned on any other status, and when no ranged GET was
issued the caller observes the initial status code. -/
theorem C10_return_code (jp : String → Option (List (String × String)))
    (url : String) (offset count : Nat) (g : GEnv) (out : GOut)
    (h : get_data jp url offset count g = Except.ok out) :
    (out.ret = 401 ↔ (g.cached = none ∧ tokenCtorFailed jp g.renv = true)) ∧
    (out.ret = 401 ∨ out.ret = 0) ∧
    (out.request.isSome = true → out.ret = 0) ∧
    (out.request.isSome = true → (out.status = 200 ∨ out.status = 206) →
      out.release = some false) ∧
    (out.request.isSome = true → ¬ (out.status = 200 ∨ out.status = 206) →
      out.release = some true) ∧
    (out.request = none → out.status = initialStatus) := by
  cases hg : g.cached with
  | some i =>
    rw [get_data_hit jp url offset count g i hg] at h
    by_cases hst : g.ranged.status = 200 ∨ g.ranged.status = 206
    · rw [if_pos hst] at h
      injection h with h2
      subst h2
      simp [hg, hst]
    · rw [if_neg hst] at h
      injection h with h2
      subst h2
      simp [hg, hst]
  | none =>
    have hcode := get_actual_url_code jp g.renv
    cases hr : (get_actual_url jp g.renv).result with
    | error er =>
      cases er with
      | fail =>
        rw [get_data_miss_fail jp url offset count g hg hr] at h
        injection h with h2
        subst h2
        by_cases hf : tokenCtorFailed jp g.renv = true
        · have hc : (get_actual_url jp g.renv).code = 401 := by
            rw [hcode.1, if_pos hf]
          simp [hg, hc, hf, initialStatus]
        · have hc : (get_actual_url jp g.renv).code = 0 := by
            rw [hcode.1, if_neg hf]
          simp [hg, hc, hf, initialStatus]
      | crash =>
        rw [get_data_miss_crash jp url offset count g hg hr] at h
        cases h
    | ok i =>
      have hf : tokenCtorFailed jp g.renv ≠ true := fun hft =>
        Except.noConfusion (hr.symm.trans (hcode.2 hft))
      have hc : (get_actual_url jp g.renv).code = 0 := by
        rw [hcode.1, if_neg hf]
      rw [get_data_miss_ok jp url offset count g i hg hr] at h
      by_cases hst : g.ranged.status = 200 ∨ g.ranged.status = 206
      · rw [if_pos hst] at h
        injection h with h2
        subst h2
        simp [hg, hc, hf, hst]
      · rw [if_neg hst] at h
        injection h with h2
        subst h2
        simp [hg, hc, hf, hst]

/-- Witness for C10_return_code: a cached Self entry and a 206 ranged
GET; the returned long is 0 (not 401). -/
theorem C10_return_code_witness :
    ((⟨0, 206, some ⟨"https://r/blob", some "Bearer Bearer tok", 0, 3⟩,
        some false, []⟩ : GOut).ret = 401 ∨
      (⟨0, 206, some ⟨"https://r/blob", some "Bearer Bearer tok", 0, 3⟩,
        some false, []⟩ : GOut).ret = 0) :=
  (C10_return_code jp0 "https://r/blob" 0 4
    ⟨some ⟨UrlMode.Self, "Bearer tok"⟩, selfEnv, "", ⟨206, none, "", "", 0⟩⟩
    ⟨0, 206, some ⟨"https://r/blob", some "Bearer Bearer tok", 0, 3⟩,
      some false, []⟩ rfl).2.1

end RegV2
